import Mathlib

/- Shallow embedding of the fast-simplex-noise-js noise generator
   (src/index.ts, with the deno single-dimension variants as cross
   references).  JavaScript numbers are idealised as real numbers; the
   injected random source returns rationals (every IEEE-754 double in
   [0,1) is rational), which keeps the permutation-table builder
   computable and decidable. -/

/-- Constant G2 = (3 - sqrt 3) / 6 from the source. -/
noncomputable def G2 : ℝ := (3 - Real.sqrt 3) / 6

/-- Constant G3 = 1 / 6 from the source. -/
noncomputable def G3 : ℝ := 1 / 6

/-- Constant G4 = (5 - sqrt 5) / 20 from the source. -/
noncomputable def G4 : ℝ := (5 - Real.sqrt 5) / 20

/-- Gradient table GRAD3D from the source: twelve 3-component vectors,
used for both the 2D and the 3D kernel. -/
def GRAD3D : List (List ℤ) :=
  [[1, 1, 0], [-1, 1, 0], [1, -1, 0], [-1, -1, 0],
   [1, 0, 1], [-1, 0, 1], [1, 0, -1], [-1, 0, -1],
   [0, 1, 1], [0, -1, -1], [0, 1, -1], [0, -1, -1]]

/-- Gradient table GRAD4D from the source: thirty-two 4-component
vectors, used by the 4D kernel. -/
def GRAD4D : List (List ℤ) :=
  [[0, 1, 1, 1], [0, 1, 1, -1], [0, 1, -1, 1], [0, 1, -1, -1],
   [0, -1, 1, 1], [0, -1, 1, -1], [0, -1, -1, 1], [0, -1, -1, -1],
   [1, 0, 1, 1], [1, 0, 1, -1], [1, 0, -1, 1], [1, 0, -1, -1],
   [-1, 0, 1, 1], [-1, 0, 1, -1], [-1, 0, -1, 1], [-1, 0, -1, -1],
   [1, 1, 0, 1], [1, 1, 0, -1], [1, -1, 0, 1], [1, -1, 0, -1],
   [-1, 1, 0, 1], [-1, 1, 0, -1], [-1, -1, 0, 1], [-1, -1, 0, -1],
   [1, 1, 1, 0], [1, 1, -1, 0], [1, -1, 1, 0], [1, -1, -1, 0],
   [-1, 1, 1, 0], [-1, 1, -1, 0], [-1, -1, 1, 0], [-1, -1, -1, 0]]

/-- One iteration of the constructor's Fisher-Yates loop at index `i`
(`n = Math.floor((i + 1) * this.random()); q = p[i]; p[i] = p[n];
p[n] = q`).  The random source is indexed by call number; the call made
at loop index `i` is call `255 - i`.  `List.set` out of range is a
no-op and `getD` out of range yields 0, matching `Uint8Array`
semantics (out-of-range stores are ignored, and an `undefined` read
coerces to 0 when stored). -/
def fyStep (random : ℕ → ℚ) (p : List ℕ) (i : ℕ) : List ℕ :=
  let n : ℕ := (⌊(i + 1 : ℚ) * random (255 - i)⌋).toNat
  let q := p.getD i 0
  (p.set i (p.getD n 0)).set n q

/-- Constructor loop `for (let i = 255; i > 0; i--)`: processes indices
`i, i - 1, ..., 1`. -/
def fyLoop (random : ℕ → ℚ) : ℕ → List ℕ → List ℕ
  | 0, p => p
  | i + 1, p => fyLoop random i (fyStep random p (i + 1))

/-- The 256-entry table `p` built by the constructor: start from the
identity sequence `0..255` and shuffle. -/
def pTable (random : ℕ → ℚ) : List ℕ :=
  fyLoop random 255 (List.range 256)

/-- The doubled 512-entry table: `this.perm[i] = p[i & 255]`.  For
`i < 512` the mask `i & 255` equals `i % 256`. -/
def permList (random : ℕ → ℚ) : List ℕ :=
  (List.range 512).map fun i => (pTable random).getD (i % 256) 0

/-- The derived table: `this.permMod12[i] = this.perm[i] % 12`. -/
def permMod12List (random : ℕ → ℚ) : List ℕ :=
  (permList random).map (· % 12)

/-- A constructed noise generator: the scalar configuration together
with the tables built from its random source. -/
structure Gen where
  amplitude : ℝ
  frequency : ℝ
  octaves : ℤ
  persistence : ℝ
  min : ℝ
  max : ℝ
  random : ℕ → ℚ
  perm : List ℕ
  permMod12 : List ℕ

/-- The output-rescaling function selected by the constructor:
identity when the range is the default [-1, 1], otherwise the linear
interpolation `min + ((value + 1) / 2) * (max - min)`. -/
noncomputable def scaleFun (min max : ℝ) (value : ℝ) : ℝ :=
  if min = -1 ∧ max = 1 then value
  else min + ((value + 1) / 2) * (max - min)

/-- Assemble a generator from already-validated configuration values,
building the permutation tables from the random source exactly as the
constructor does. -/
def buildGen (amplitude frequency : ℝ) (octaves : ℤ) (persistence : ℝ)
    (random : ℕ → ℚ) (min max : ℝ) : Gen :=
  { amplitude := amplitude, frequency := frequency, octaves := octaves,
    persistence := persistence, min := min, max := max, random := random,
    perm := permList random, permMod12 := permMod12List random }

/-- Method `dot`: slices the gradient to the shorter of the two lengths
and accumulates the products (`List.zip` truncates to the minimum
length, exactly as `slice` + `reduce` does). -/
noncomputable def dot (gs : List ℤ) (coords : List ℝ) : ℝ :=
  (gs.zip coords).foldl (fun total gc => total + (gc.1 : ℝ) * gc.2) 0

/-- Table read `this.perm[n]` (out of range reads yield 0). -/
def permAt (g : Gen) (n : ℕ) : ℕ := g.perm.getD n 0

/-- Table read `this.permMod12[n]` (out of range reads yield 0). -/
def permMod12At (g : Gen) (n : ℕ) : ℕ := g.permMod12.getD n 0

/-- JavaScript `i & 255` on an integral double: `ToInt32` wraps modulo
2^32 and the bitmask then reduces modulo 256, so the result is
`i mod 256` in [0, 255]. -/
def mask255 (i : ℤ) : ℕ := (i % 256).toNat

/-- Skew factor of the 2D kernel: `s = (x + y) * 0.5 * (sqrt 3 - 1)`. -/
noncomputable def skew2 (x y : ℝ) : ℝ := (x + y) * 0.5 * (Real.sqrt 3 - 1)

/-- Cell index `i = Math.floor(x + s)` of the 2D kernel. -/
noncomputable def cell2I (x y : ℝ) : ℤ := ⌊x + skew2 x y⌋

/-- Cell index `j = Math.floor(y + s)` of the 2D kernel. -/
noncomputable def cell2J (x y : ℝ) : ℤ := ⌊y + skew2 x y⌋

/-- The three indices into `permMod12` computed by `raw2D`
(`ii + perm[jj]`, `ii + i1 + perm[jj + j1]`, `ii + 1 + perm[jj + 1]`). -/
noncomputable def hashIdx2 (g : Gen) (x y : ℝ) : ℕ × ℕ × ℕ :=
  let i := cell2I x y
  let j := cell2J x y
  let t := ((i + j : ℤ) : ℝ) * G2
  let x0 := x - ((i : ℝ) - t)
  let y0 := y - ((j : ℝ) - t)
  let i1 : ℕ := if x0 > y0 then 1 else 0
  let j1 : ℕ := if x0 > y0 then 0 else 1
  let ii := mask255 i
  let jj := mask255 j
  (ii + permAt g jj, ii + i1 + permAt g (jj + j1), ii + 1 + permAt g (jj + 1))

/-- Method `raw2D` of the source. -/
noncomputable def raw2D (g : Gen) (x y : ℝ) : ℝ :=
  let i := cell2I x y
  let j := cell2J x y
  let t := ((i + j : ℤ) : ℝ) * G2
  let x0 := x - ((i : ℝ) - t)
  let y0 := y - ((j : ℝ) - t)
  let i1 : ℕ := if x0 > y0 then 1 else 0
  let j1 : ℕ := if x0 > y0 then 0 else 1
  let x1 := x0 - (i1 : ℝ) + G2
  let y1 := y0 - (j1 : ℝ) + G2
  let x2 := x0 - 1 + 2 * G2
  let y2 := y0 - 1 + 2 * G2
  let gi0 := permMod12At g (hashIdx2 g x y).1
  let gi1 := permMod12At g (hashIdx2 g x y).2.1
  let gi2 := permMod12At g (hashIdx2 g x y).2.2
  let t0 := 0.5 - x0 * x0 - y0 * y0
  let n0 := if t0 < 0 then 0 else t0 ^ 4 * dot (GRAD3D.getD gi0 []) [x0, y0]
  let t1 := 0.5 - x1 * x1 - y1 * y1
  let n1 := if t1 < 0 then 0 else t1 ^ 4 * dot (GRAD3D.getD gi1 []) [x1, y1]
  let t2 := 0.5 - x2 * x2 - y2 * y2
  let n2 := if t2 < 0 then 0 else t2 ^ 4 * dot (GRAD3D.getD gi2 []) [x2, y2]
  70.14805770653952 * (n0 + n1 + n2)

/-- Skew factor of the 3D kernel: `s = (x + y + z) / 3`. -/
noncomputable def skew3 (x y z : ℝ) : ℝ := (x + y + z) / 3

/-- Cell index `i` of the 3D kernel. -/
noncomputable def cell3I (x y z : ℝ) : ℤ := ⌊x + skew3 x y z⌋

/-- Cell index `j` of the 3D kernel. -/
noncomputable def cell3J (x y z : ℝ) : ℤ := ⌊y + skew3 x y z⌋

/-- Cell index `k` of the 3D kernel. -/
noncomputable def cell3K (x y z : ℝ) : ℤ := ⌊z + skew3 x y z⌋

/-- The six-way branch of `raw3D` choosing the second and third simplex
corner offsets `((i1, j1, k1), (i2, j2, k2))`. -/
noncomputable def simplex3Offsets (x0 y0 z0 : ℝ) : (ℕ × ℕ × ℕ) × (ℕ × ℕ × ℕ) :=
  if x0 ≥ y0 then
    if y0 ≥ z0 then ((1, 0, 0), (1, 1, 0))
    else if x0 ≥ z0 then ((1, 0, 0), (1, 0, 1))
    else ((0, 0, 1), (1, 0, 1))
  else
    if y0 < z0 then ((0, 0, 1), (0, 1, 1))
    else if x0 < z0 then ((0, 1, 0), (0, 1, 1))
    else ((0, 1, 0), (1, 1, 0))

/-- Nested 3D hash `ii + a + perm[jj + b + perm[kk + c]]`. -/
def hash3 (g : Gen) (ii jj kk a b c : ℕ) : ℕ :=
  ii + a + permAt g (jj + b + permAt g (kk + c))

/-- The four indices into `permMod12` computed by `raw3D`. -/
noncomputable def hashIdx3 (g : Gen) (x y z : ℝ) : ℕ × ℕ × ℕ × ℕ :=
  let i := cell3I x y z
  let j := cell3J x y z
  let k := cell3K x y z
  let t := ((i + j + k : ℤ) : ℝ) * G3
  let x0 := x - ((i : ℝ) - t)
  let y0 := y - ((j : ℝ) - t)
  let z0 := z - ((k : ℝ) - t)
  let off := simplex3Offsets x0 y0 z0
  let ii := mask255 i
  let jj := mask255 j
  let kk := mask255 k
  (hash3 g ii jj kk 0 0 0,
   hash3 g ii jj kk off.1.1 off.1.2.1 off.1.2.2,
   hash3 g ii jj kk off.2.1 off.2.2.1 off.2.2.2,
   hash3 g ii jj kk 1 1 1)

/-- Method `raw3D` of the source. -/
noncomputable def raw3D (g : Gen) (x y z : ℝ) : ℝ :=
  let i := cell3I x y z
  let j := cell3J x y z
  let k := cell3K x y z
  let t := ((i + j + k : ℤ) : ℝ) * G3
  let x0 := x - ((i : ℝ) - t)
  let y0 := y - ((j : ℝ) - t)
  let z0 := z - ((k : ℝ) - t)
  let off := simplex3Offsets x0 y0 z0
  let i1 := off.1.1
  let j1 := off.1.2.1
  let k1 := off.1.2.2
  let i2 := off.2.1
  let j2 := off.2.2.1
  let k2 := off.2.2.2
  let x1 := x0 - (i1 : ℝ) + G3
  let y1 := y0 - (j1 : ℝ) + G3
  let z1 := z0 - (k1 : ℝ) + G3
  let x2 := x0 - (i2 : ℝ) + 2 * G3
  let y2 := y0 - (j2 : ℝ) + 2 * G3
  let z2 := z0 - (k2 : ℝ) + 2 * G3
  let x3 := x0 - 1 + 3 * G3
  let y3 := y0 - 1 + 3 * G3
  let z3 := z0 - 1 + 3 * G3
  let gi0 := permMod12At g (hashIdx3 g x y z).1
  let gi1 := permMod12At g (hashIdx3 g x y z).2.1
  let gi2 := permMod12At g (hashIdx3 g x y z).2.2.1
  let gi3 := permMod12At g (hashIdx3 g x y z).2.2.2
  let t0 := 0.5 - x0 * x0 - y0 * y0 - z0 * z0
  let n0 := if t0 < 0 then 0 else t0 ^ 4 * dot (GRAD3D.getD gi0 []) [x0, y0, z0]
  let t1 := 0.5 - x1 * x1 - y1 * y1 - z1 * z1
  let n1 := if t1 < 0 then 0 else t1 ^ 4 * dot (GRAD3D.getD gi1 []) [x1, y1, z1]
  let t2 := 0.5 - x2 * x2 - y2 * y2 - z2 * z2
  let n2 := if t2 < 0 then 0 else t2 ^ 4 * dot (GRAD3D.getD gi2 []) [x2, y2, z2]
  let t3 := 0.5 - x3 * x3 - y3 * y3 - z3 * z3
  let n3 := if t3 < 0 then 0 else t3 ^ 4 * dot (GRAD3D.getD gi3 []) [x3, y3, z3]
  94.68493150681972 * (n0 + n1 + n2 + n3)

/-- Skew factor of the 4D kernel: `s = (x + y + z + w) * (sqrt 5 - 1) / 4`. -/
noncomputable def skew4 (x y z w : ℝ) : ℝ := (x + y + z + w) * (Real.sqrt 5 - 1) / 4

/-- Cell index `i` of the 4D kernel. -/
noncomputable def cell4I (x y z w : ℝ) : ℤ := ⌊x + skew4 x y z w⌋

/-- Cell index `j` of the 4D kernel. -/
noncomputable def cell4J (x y z w : ℝ) : ℤ := ⌊y + skew4 x y z w⌋

/-- Cell index `k` of the 4D kernel. -/
noncomputable def cell4K (x y z w : ℝ) : ℤ := ⌊z + skew4 x y z w⌋

/-- Cell index `l` of the 4D kernel. -/
noncomputable def cell4L (x y z w : ℝ) : ℤ := ⌊w + skew4 x y z w⌋

/-- The rank counters of `raw4D`: six pairwise comparisons, each
incrementing the strictly greater coordinate's counter, and the
second-named coordinate's counter otherwise.  The tuple is
`(rankx, ranky, rankz, rankw)`. -/
noncomputable def ranks4 (x0 y0 z0 w0 : ℝ) : ℕ × ℕ × ℕ × ℕ :=
  ((if x0 > y0 then 1 else 0) + (if x0 > z0 then 1 else 0) + (if x0 > w0 then 1 else 0),
   (if x0 > y0 then 0 else 1) + (if y0 > z0 then 1 else 0) + (if y0 > w0 then 1 else 0),
   (if x0 > z0 then 0 else 1) + (if y0 > z0 then 0 else 1) + (if z0 > w0 then 1 else 0),
   (if x0 > w0 then 0 else 1) + (if y0 > w0 then 0 else 1) + (if z0 > w0 then 0 else 1))

/-- Simplex corner offsets of `raw4D` by rank threshold: threshold 3
gives `(i1, j1, k1, l1)`, threshold 2 gives `(i2, j2, k2, l2)`,
threshold 1 gives `(i3, j3, k3, l3)`. -/
noncomputable def corner4 (x0 y0 z0 w0 : ℝ) (thr : ℕ) : ℕ × ℕ × ℕ × ℕ :=
  let rk := ranks4 x0 y0 z0 w0
  ((if rk.1 ≥ thr then 1 else 0), (if rk.2.1 ≥ thr then 1 else 0),
   (if rk.2.2.1 ≥ thr then 1 else 0), (if rk.2.2.2 ≥ thr then 1 else 0))

/-- Nested 4D hash `ii + a + perm[jj + b + perm[kk + c + perm[ll + d]]]`:
the index of the outermost `perm` read used for a 4D gradient. -/
def hash4 (g : Gen) (ii jj kk ll a b c d : ℕ) : ℕ :=
  ii + a + permAt g (jj + b + permAt g (kk + c + permAt g (ll + d)))

/-- The five outer `perm` indices computed by `raw4D`; each gradient
index is the corresponding `perm` byte reduced modulo 32. -/
noncomputable def hashIdx4 (g : Gen) (x y z w : ℝ) : ℕ × ℕ × ℕ × ℕ × ℕ :=
  let i := cell4I x y z w
  let j := cell4J x y z w
  let k := cell4K x y z w
  let l := cell4L x y z w
  let t := ((i + j + k + l : ℤ) : ℝ) * G4
  let x0 := x - ((i : ℝ) - t)
  let y0 := y - ((j : ℝ) - t)
  let z0 := z - ((k : ℝ) - t)
  let w0 := w - ((l : ℝ) - t)
  let c1 := corner4 x0 y0 z0 w0 3
  let c2 := corner4 x0 y0 z0 w0 2
  let c3 := corner4 x0 y0 z0 w0 1
  let ii := mask255 i
  let jj := mask255 j
  let kk := mask255 k
  let ll := mask255 l
  (hash4 g ii jj kk ll 0 0 0 0,
   hash4 g ii jj kk ll c1.1 c1.2.1 c1.2.2.1 c1.2.2.2,
   hash4 g ii jj kk ll c2.1 c2.2.1 c2.2.2.1 c2.2.2.2,
   hash4 g ii jj kk ll c3.1 c3.2.1 c3.2.2.1 c3.2.2.2,
   hash4 g ii jj kk ll 1 1 1 1)

/-- Method `raw4D` of the source. -/
noncomputable def raw4D (g : Gen) (x y z w : ℝ) : ℝ :=
  let i := cell4I x y z w
  let j := cell4J x y z w
  let k := cell4K x y z w
  let l := cell4L x y z w
  let t := ((i + j + k + l : ℤ) : ℝ) * G4
  let x0 := x - ((i : ℝ) - t)
  let y0 := y - ((j : ℝ) - t)
  let z0 := z - ((k : ℝ) - t)
  let w0 := w - ((l : ℝ) - t)
  let c1 := corner4 x0 y0 z0 w0 3
  let c2 := corner4 x0 y0 z0 w0 2
  let c3 := corner4 x0 y0 z0 w0 1
  let x1 := x0 - (c1.1 : ℝ) + G4
  let y1 := y0 - (c1.2.1 : ℝ) + G4
  let z1 := z0 - (c1.2.2.1 : ℝ) + G4
  let w1 := w0 - (c1.2.2.2 : ℝ) + G4
  let x2 := x0 - (c2.1 : ℝ) + 2 * G4
  let y2 := y0 - (c2.2.1 : ℝ) + 2 * G4
  let z2 := z0 - (c2.2.2.1 : ℝ) + 2 * G4
  let w2 := w0 - (c2.2.2.2 : ℝ) + 2 * G4
  let x3 := x0 - (c3.1 : ℝ) + 3 * G4
  let y3 := y0 - (c3.2.1 : ℝ) + 3 * G4
  let z3 := z0 - (c3.2.2.1 : ℝ) + 3 * G4
  let w3 := w0 - (c3.2.2.2 : ℝ) + 3 * G4
  let x4 := x0 - 1 + 4 * G4
  let y4 := y0 - 1 + 4 * G4
  let z4 := z0 - 1 + 4 * G4
  let w4 := w0 - 1 + 4 * G4
  let gi0 := permAt g (hashIdx4 g x y z w).1 % 32
  let gi1 := permAt g (hashIdx4 g x y z w).2.1 % 32
  let gi2 := permAt g (hashIdx4 g x y z w).2.2.1 % 32
  let gi3 := permAt g (hashIdx4 g x y z w).2.2.2.1 % 32
  let gi4 := permAt g (hashIdx4 g x y z w).2.2.2.2 % 32
  let t0 := 0.5 - x0 * x0 - y0 * y0 - z0 * z0 - w0 * w0
  let n0 := if t0 < 0 then 0 else t0 ^ 4 * dot (GRAD4D.getD gi0 []) [x0, y0, z0, w0]
  let t1 := 0.5 - x1 * x1 - y1 * y1 - z1 * z1 - w1 * w1
  let n1 := if t1 < 0 then 0 else t1 ^ 4 * dot (GRAD4D.getD gi1 []) [x1, y1, z1, w1]
  let t2 := 0.5 - x2 * x2 - y2 * y2 - z2 * z2 - w2 * w2
  let n2 := if t2 < 0 then 0 else t2 ^ 4 * dot (GRAD4D.getD gi2 []) [x2, y2, z2, w2]
  let t3 := 0.5 - x3 * x3 - y3 * y3 - z3 * z3 - w3 * w3
  let n3 := if t3 < 0 then 0 else t3 ^ 4 * dot (GRAD4D.getD gi3 []) [x3, y3, z3, w3]
  let t4 := 0.5 - x4 * x4 - y4 * y4 - z4 * z4 - w4 * w4
  let n4 := if t4 < 0 then 0 else t4 ^ 4 * dot (GRAD4D.getD gi4 []) [x4, y4, z4, w4]
  72.37855765153665 * (n0 + n1 + n2 + n3 + n4)

/-- The octave loop shared by `scaled2D`, `scaled3D` and `scaled4D`:
state is `(amplitude, frequency, maxAmplitude, noise)` and each
iteration adds `kernel(frequency) * amplitude` to the noise, adds
`amplitude` to `maxAmplitude`, multiplies `amplitude` by the
persistence and doubles `frequency`.  Returns `(noise, maxAmplitude)`. -/
noncomputable def octaveLoop (persistence : ℝ) (kernel : ℝ → ℝ) :
    ℕ → ℝ → ℝ → ℝ → ℝ → ℝ × ℝ
  | 0, _, _, maxAmplitude, noise => (noise, maxAmplitude)
  | n + 1, amplitude, frequency, maxAmplitude, noise =>
      octaveLoop persistence kernel n (amplitude * persistence) (frequency * 2)
        (maxAmplitude + amplitude) (noise + kernel frequency * amplitude)

/-- Method `scaled2D`: run the octave loop `octaves` times (a
nonpositive octave count runs zero iterations) and rescale
`noise / maxAmplitude`. -/
noncomputable def scaled2D (g : Gen) (x y : ℝ) : ℝ :=
  let res := octaveLoop g.persistence (fun f => raw2D g (x * f) (y * f))
    g.octaves.toNat g.amplitude g.frequency 0 0
  scaleFun g.min g.max (res.1 / res.2)

/-- Method `scaled3D`. -/
noncomputable def scaled3D (g : Gen) (x y z : ℝ) : ℝ :=
  let res := octaveLoop g.persistence (fun f => raw3D g (x * f) (y * f) (z * f))
    g.octaves.toNat g.amplitude g.frequency 0 0
  scaleFun g.min g.max (res.1 / res.2)

/-- Method `scaled4D`. -/
noncomputable def scaled4D (g : Gen) (x y z w : ℝ) : ℝ :=
  let res := octaveLoop g.persistence (fun f => raw4D g (x * f) (y * f) (z * f) (w * f))
    g.octaves.toNat g.amplitude g.frequency 0 0
  scaleFun g.min g.max (res.1 / res.2)

/-- Method `raw`: dispatch on the coordinate count; any length other
than 2, 3 or 4 returns `null` (modelled as `none`). -/
noncomputable def raw (g : Gen) (coords : List ℝ) : Option ℝ :=
  match coords.length with
  | 2 => some (raw2D g (coords.getD 0 0) (coords.getD 1 0))
  | 3 => some (raw3D g (coords.getD 0 0) (coords.getD 1 0) (coords.getD 2 0))
  | 4 => some (raw4D g (coords.getD 0 0) (coords.getD 1 0) (coords.getD 2 0) (coords.getD 3 0))
  | _ => none

/-- Method `scaled`: dispatch on the coordinate count; any length other
than 2, 3 or 4 returns `null`. -/
noncomputable def scaled (g : Gen) (coords : List ℝ) : Option ℝ :=
  match coords.length with
  | 2 => some (scaled2D g (coords.getD 0 0) (coords.getD 1 0))
  | 3 => some (scaled3D g (coords.getD 0 0) (coords.getD 1 0) (coords.getD 2 0))
  | 4 => some (scaled4D g (coords.getD 0 0) (coords.getD 1 0) (coords.getD 2 0) (coords.getD 3 0))
  | _ => none

/-- Method `cylindrical2D`. -/
noncomputable def cylindrical2D (g : Gen) (circumference x y : ℝ) : ℝ :=
  let nx := x / circumference
  let r := circumference / (2 * Real.pi)
  let rdx := nx * 2 * Real.pi
  let a := r * Real.sin rdx
  let b := r * Real.cos rdx
  scaled3D g a b y

/-- Method `cylindrical3D`. -/
noncomputable def cylindrical3D (g : Gen) (circumference x y z : ℝ) : ℝ :=
  let nx := x / circumference
  let r := circumference / (2 * Real.pi)
  let rdx := nx * 2 * Real.pi
  let a := r * Real.sin rdx
  let b := r * Real.cos rdx
  scaled4D g a b y z

/-- Method `cylindrical`: lengths other than 2 and 3 return `null`. -/
noncomputable def cylindrical (g : Gen) (circumference : ℝ) (coords : List ℝ) : Option ℝ :=
  match coords.length with
  | 2 => some (cylindrical2D g circumference (coords.getD 0 0) (coords.getD 1 0))
  | 3 => some (cylindrical3D g circumference (coords.getD 0 0) (coords.getD 1 0) (coords.getD 2 0))
  | _ => none

/-- Method `spherical2D`. -/
noncomputable def spherical2D (g : Gen) (circumference x y : ℝ) : ℝ :=
  let nx := x / circumference
  let ny := y / circumference
  let rdx := nx * 2 * Real.pi
  let rdy := ny * Real.pi
  let sinY := Real.sin (rdy + Real.pi)
  let sinRds := 2 * Real.pi
  let a := sinRds * Real.sin rdx * sinY
  let b := sinRds * Real.cos rdx * sinY
  let d := sinRds * Real.cos rdy
  scaled3D g a b d

/-- Method `spherical3D`. -/
noncomputable def spherical3D (g : Gen) (circumference x y z : ℝ) : ℝ :=
  let nx := x / circumference
  let ny := y / circumference
  let rdx := nx * 2 * Real.pi
  let rdy := ny * Real.pi
  let sinY := Real.sin (rdy + Real.pi)
  let sinRds := 2 * Real.pi
  let a := sinRds * Real.sin rdx * sinY
  let b := sinRds * Real.cos rdx * sinY
  let d := sinRds * Real.cos rdy
  scaled4D g a b d z

/-- Method `spherical`: lengths other than 2 and 3 return `null`. -/
noncomputable def spherical (g : Gen) (circumference : ℝ) (coords : List ℝ) : Option ℝ :=
  match coords.length with
  | 2 => some (spherical2D g circumference (coords.getD 0 0) (coords.getD 1 0))
  | 3 => some (spherical3D g circumference (coords.getD 0 0) (coords.getD 1 0) (coords.getD 2 0))
  | _ => none

/-- A JavaScript value supplied for a numeric option: either a number
(idealised as a real; NaN and infinities are outside this model) or a
value of some other type. -/
inductive JSOpt where
  | num (x : ℝ)
  | nonNum

/-- The constructor's options object.  A field holds `none` when the
property is absent (`hasOwnProperty` is false).  The `random` field
holds `some none` when the property is present but not a function. -/
structure Options where
  amplitude : Option JSOpt
  frequency : Option JSOpt
  max : Option JSOpt
  min : Option JSOpt
  octaves : Option JSOpt
  persistence : Option JSOpt
  random : Option (Option (ℕ → ℚ))

/-- Validation of a plain numeric option: absent yields the default,
a number is accepted, anything else throws. -/
noncomputable def numOption (v : Option JSOpt) (dflt : ℝ) (msg : String) : Except String ℝ :=
  match v with
  | none => .ok dflt
  | some (.num x) => .ok x
  | some .nonNum => .error msg

/-- Validation of the octaves option: a present value must be a number
whose floor equals itself (the `isFinite` test cannot fail for a real
number); the stored octave count is that integer.  Positivity is not
checked. -/
noncomputable def octavesOption (v : Option JSOpt) : Except String ℤ :=
  match v with
  | none => .ok 1
  | some (.num x) =>
      if (⌊x⌋ : ℝ) = x then .ok ⌊x⌋
      else .error "options.octaves must be an integer"
  | some .nonNum => .error "options.octaves must be an integer"

/-- Validation of the random option: a present value must be a
function. -/
def randomOption (v : Option (Option (ℕ → ℚ))) (dflt : ℕ → ℚ) :
    Except String (ℕ → ℚ) :=
  match v with
  | none => .ok dflt
  | some (some f) => .ok f
  | some none => .error "options.random must be a function"

/-- The constructor: validate each option in source order, reject
`min >= max`, then build the generator (permutation tables included).
`defaultRandom` stands for `Math.random`. -/
noncomputable def construct (defaultRandom : ℕ → ℚ) (options : Options) :
    Except String Gen := do
  let amplitude ← numOption options.amplitude 1 "options.amplitude must be a number"
  let frequency ← numOption options.frequency 1 "options.frequency must be a number"
  let octaves ← octavesOption options.octaves
  let persistence ← numOption options.persistence 0.5 "options.persistence must be a number"
  let random ← randomOption options.random defaultRandom
  let min ← numOption options.min (-1) "options.min must be a number"
  let max ← numOption options.max 1 "options.max must be a number"
  if min ≥ max then
    throw "options.min must be less than options.max"
  else
    pure (buildGen amplitude frequency octaves persistence random min max)

/-- Success condition for a plain numeric option: a present value must
be a number. -/
def numOk : Option JSOpt → Prop
  | some .nonNum => False
  | _ => True

/-- Success condition for the octaves option: a present value must be
a number equal to its floor. -/
def octavesOk : Option JSOpt → Prop
  | none => True
  | some (.num x) => (⌊x⌋ : ℝ) = x
  | some .nonNum => False

/-- Success condition for the random option: a present value must be a
function. -/
def randomOk : Option (Option (ℕ → ℚ)) → Prop
  | some none => False
  | _ => True

/-- The value a numeric option contributes on success (its number, or
the default when absent). -/
noncomputable def effNum (v : Option JSOpt) (d : ℝ) : ℝ :=
  match v with
  | some (.num x) => x
  | _ => d

/-- Options supplying only `octaves = 0` (an integer, but not a
positive one). -/
def optionsOctZero : Options :=
  { amplitude := none, frequency := none, max := none, min := none,
    octaves := some (.num 0), persistence := none, random := none }

/-- Pure-arithmetic mirror of the Fisher-Yates loop for the all-zeros
random source: every draw is 0, so each step swaps entry `i` with
entry 0. -/
def swapLoop : ℕ → List ℕ → List ℕ
  | 0, p => p
  | i + 1, p => swapLoop i ((p.set (i + 1) (p.getD 0 0)).set 0 (p.getD (i + 1) 0))

/-- The all-zeros random source, used for concrete instantiations. -/
def zeroRandom : ℕ → ℚ := fun _ => 0

/-- A concrete generator: all-zeros random source, default scalar
configuration (amplitude 1, frequency 1, octaves 1, persistence 0.5,
range [-1, 1]). -/
noncomputable def gen0 : Gen := buildGen 1 1 1 0.5 zeroRandom (-1) 1

/-- C7: the 3D gradient table has exactly 12 three-component entries,
each component in {-1, 0, 1} with exactly one zero component, and the
row [0, -1, -1] appears at the two distinct indices 9 and 11; the 4D
gradient table has exactly 32 four-component entries, each component in
{-1, 0, 1} with exactly one zero component. -/
theorem c7_gradient_tables :
    GRAD3D.length = 12 ∧
    (∀ v ∈ GRAD3D, v.length = 3 ∧ (∀ c ∈ v, c = -1 ∨ c = 0 ∨ c = 1) ∧ v.count 0 = 1) ∧
    GRAD3D.getD 9 [] = [0, -1, -1] ∧ GRAD3D.getD 11 [] = [0, -1, -1] ∧ (9 : ℕ) ≠ 11 ∧
    GRAD4D.length = 32 ∧
    (∀ v ∈ GRAD4D, v.length = 4 ∧ (∀ c ∈ v, c = -1 ∨ c = 0 ∨ c = 1) ∧ v.count 0 = 1) := by
  decide

/-- C6: for every real cell-relative tuple in `raw4D`, the six pairwise
comparisons assign the four rank counters exactly the values
{0, 1, 2, 3} (so each axis gets a unique rank); the second, third and
fourth corner offsets are the indicators of rank at least 3, 2, 1
respectively, and threshold 0 (the fifth corner) gives offset 1 on
every axis. -/
theorem c6_rank_ordering (x0 y0 z0 w0 : ℝ) :
    ({(ranks4 x0 y0 z0 w0).1, (ranks4 x0 y0 z0 w0).2.1,
      (ranks4 x0 y0 z0 w0).2.2.1, (ranks4 x0 y0 z0 w0).2.2.2} : Multiset ℕ)
      = {0, 1, 2, 3} ∧
    (∀ thr : ℕ, corner4 x0 y0 z0 w0 thr =
      ((if (ranks4 x0 y0 z0 w0).1 ≥ thr then 1 else 0),
       (if (ranks4 x0 y0 z0 w0).2.1 ≥ thr then 1 else 0),
       (if (ranks4 x0 y0 z0 w0).2.2.1 ≥ thr then 1 else 0),
       (if (ranks4 x0 y0 z0 w0).2.2.2 ≥ thr then 1 else 0))) ∧
    corner4 x0 y0 z0 w0 0 = (1, 1, 1, 1) := by
  refine ⟨?_, fun thr => rfl, ?_⟩
  · unfold ranks4
    by_cases h1 : x0 > y0 <;> by_cases h2 : x0 > z0 <;> by_cases h3 : x0 > w0 <;>
      by_cases h4 : y0 > z0 <;> by_cases h5 : y0 > w0 <;> by_cases h6 : z0 > w0 <;>
      simp only [h1, h2, h3, h4, h5, h6, if_true, if_false] <;>
      first
        | decide
        | (exfalso; linarith)
  · unfold corner4
    simp [Nat.zero_le]

/-- C8: two generators constructed from random sources that return the
identical sequence of values produce equal raw2D, raw3D and raw4D
outputs at every fixed input coordinate. -/
theorem c8_deterministic (r1 r2 : ℕ → ℚ) (h : ∀ k, r1 k = r2 k)
    (a f : ℝ) (o : ℤ) (p mn mx : ℝ) (x y z w : ℝ) :
    raw2D (buildGen a f o p r1 mn mx) x y = raw2D (buildGen a f o p r2 mn mx) x y ∧
    raw3D (buildGen a f o p r1 mn mx) x y z = raw3D (buildGen a f o p r2 mn mx) x y z ∧
    raw4D (buildGen a f o p r1 mn mx) x y z w = raw4D (buildGen a f o p r2 mn mx) x y z w := by
  have hr : r1 = r2 := funext h
  subst hr
  exact ⟨rfl, rfl, rfl⟩

/-- Witness for C8 at the all-zeros source and the origin. -/
theorem c8_deterministic_witness :
    raw2D (buildGen 1 1 1 0.5 zeroRandom (-1) 1) 0 0
      = raw2D (buildGen 1 1 1 0.5 zeroRandom (-1) 1) 0 0 ∧
    raw3D (buildGen 1 1 1 0.5 zeroRandom (-1) 1) 0 0 0
      = raw3D (buildGen 1 1 1 0.5 zeroRandom (-1) 1) 0 0 0 ∧
    raw4D (buildGen 1 1 1 0.5 zeroRandom (-1) 1) 0 0 0 0
      = raw4D (buildGen 1 1 1 0.5 zeroRandom (-1) 1) 0 0 0 0 :=
  c8_deterministic zeroRandom zeroRandom (fun _ => rfl) 1 1 1 0.5 (-1) 1 0 0 0 0

/-- C10: the list-dispatching methods return null (`none`) outside the
supported coordinate counts: `raw`/`scaled` for lengths other than
2, 3, 4, and `cylindrical`/`spherical` for lengths other than 2, 3. -/
theorem c10_dispatch_null (g : Gen) (circ : ℝ) (coords : List ℝ) :
    (coords.length ≠ 2 → coords.length ≠ 3 → coords.length ≠ 4 →
      raw g coords = none ∧ scaled g coords = none) ∧
    (coords.length ≠ 2 → coords.length ≠ 3 →
      cylindrical g circ coords = none ∧ spherical g circ coords = none) := by
  constructor
  · intro h2 h3 h4
    unfold raw scaled
    rcases Nat.lt_or_ge coords.length 2 with h | h
    · rcases (by omega : coords.length = 0 ∨ coords.length = 1) with h0 | h0 <;>
        rw [h0] <;> exact ⟨rfl, rfl⟩
    · obtain ⟨m, hm⟩ : ∃ m, coords.length = m + 5 := ⟨coords.length - 5, by omega⟩
      rw [hm]
      exact ⟨rfl, rfl⟩
  · intro h2 h3
    unfold cylindrical spherical
    rcases Nat.lt_or_ge coords.length 2 with h | h
    · rcases (by omega : coords.length = 0 ∨ coords.length = 1) with h0 | h0 <;>
        rw [h0] <;> exact ⟨rfl, rfl⟩
    · obtain ⟨m, hm⟩ : ∃ m, coords.length = m + 4 := ⟨coords.length - 4, by omega⟩
      rw [hm]
      exact ⟨rfl, rfl⟩

/-- Witness for C10 on a five-coordinate list. -/
theorem c10_dispatch_null_witness :
    (raw gen0 [0, 0, 0, 0, 0] = none ∧ scaled gen0 [0, 0, 0, 0, 0] = none) ∧
    (cylindrical gen0 1 [0, 0, 0, 0, 0] = none ∧ spherical gen0 1 [0, 0, 0, 0, 0] = none) :=
  ⟨(c10_dispatch_null gen0 1 [0, 0, 0, 0, 0]).1 (by decide) (by decide) (by decide),
   (c10_dispatch_null gen0 1 [0, 0, 0, 0, 0]).2 (by decide) (by decide)⟩

/-- One Fisher-Yates step keeps the list length. -/
theorem fyStep_length (r : ℕ → ℚ) (p : List ℕ) (i : ℕ) :
    (fyStep r p i).length = p.length := by
  simp [fyStep]

/-- The whole Fisher-Yates loop keeps the list length. -/
theorem fyLoop_length (r : ℕ → ℚ) : ∀ (i : ℕ) (p : List ℕ),
    (fyLoop r i p).length = p.length := by
  intro i
  induction i with
  | zero => intro p; rfl
  | succ i ih => intro p; rw [fyLoop, ih, fyStep_length]

/-- The built 256-entry table has length 256. -/
theorem pTable_length (r : ℕ → ℚ) : (pTable r).length = 256 := by
  rw [pTable, fyLoop_length]
  simp


/-- An in-range swap (two `set`s through `getD`) preserves every
element count. -/
theorem count_swap (p : List ℕ) (i n : ℕ) (hi : i < p.length)
    (hn : n < p.length) (a : ℕ) :
    ((p.set i (p.getD n 0)).set n (p.getD i 0)).count a = p.count a := by
  rw [List.getD_eq_getElem p 0 hi, List.getD_eq_getElem p 0 hn]
  have h1 : p[i] = a → 0 < p.count a := fun h =>
    List.count_pos_iff.mpr (h ▸ List.getElem_mem hi)
  have h2 : p[n] = a → 0 < p.count a := fun h =>
    List.count_pos_iff.mpr (h ▸ List.getElem_mem hn)
  by_cases hia : p[i] = a <;> by_cases hna : p[n] = a
  · have hc : 0 < p.count a := h1 hia
    simp [List.count_set, hi, hn, List.getElem_set, hia, hna]
    try omega
  · have hc : 0 < p.count a := h1 hia
    simp [List.count_set, hi, hn, List.getElem_set, hia, hna]
    try omega
  · have hc : 0 < p.count a := h2 hna
    simp [List.count_set, hi, hn, List.getElem_set, hia, hna]
    try omega
  · simp [List.count_set, hi, hn, List.getElem_set, hia, hna]
    try omega

/-- A Fisher-Yates step with an in-range draw preserves every element
count. -/
theorem count_fyStep (r : ℕ → ℚ) (p : List ℕ) (i : ℕ)
    (hi : i < p.length)
    (hn : (⌊(i + 1 : ℚ) * r (255 - i)⌋).toNat < p.length) (a : ℕ) :
    (fyStep r p i).count a = p.count a :=
  count_swap p i ((⌊(i + 1 : ℚ) * r (255 - i)⌋).toNat) hi hn a

/-- The Fisher-Yates loop preserves every element count when the
random source stays in [0, 1) and the loop start is in range. -/
theorem count_fyLoop (r : ℕ → ℚ) (hr : ∀ k, 0 ≤ r k ∧ r k < 1) :
    ∀ (i : ℕ) (p : List ℕ), i < p.length → ∀ a,
      (fyLoop r i p).count a = p.count a := by
  intro i
  induction i with
  | zero => intro p _ a; rfl
  | succ i ih =>
      intro p hip a
      rw [fyLoop]
      set q := r (255 - (i + 1)) with hq
      have h0 : (0 : ℚ) ≤ q := (hr _).1
      have h1 : q < 1 := (hr _).2
      have hfl : ⌊(i + 1 + 1 : ℚ) * q⌋ < (i + 1 + 1 : ℤ) := by
        rw [Int.floor_lt]
        push_cast
        nlinarith
      have hn : (⌊(i + 1 + 1 : ℚ) * q⌋).toNat < p.length := by omega
      rw [ih (fyStep r p (i + 1)) (by rw [fyStep_length]; omega) a]
      exact count_fyStep r p (i + 1) hip (by exact_mod_cast hn) a

/-- When the random source stays in [0, 1), the built table is a
permutation of 0..255. -/
theorem pTable_perm (r : ℕ → ℚ) (hr : ∀ k, 0 ≤ r k ∧ r k < 1) :
    (pTable r).Perm (List.range 256) := by
  apply List.perm_iff_count.mpr
  intro a
  exact count_fyLoop r hr 255 (List.range 256) (by simp) a

/-- Every entry of the built table is below 256. -/
theorem pTable_entry_lt (r : ℕ → ℚ) (hr : ∀ k, 0 ≤ r k ∧ r k < 1)
    (v : ℕ) (hv : v ∈ pTable r) : v < 256 :=
  List.mem_range.mp (((pTable_perm r hr).mem_iff).mp hv)

/-- Reading the doubled table at `i < 512` reads the 256-entry table at
`i % 256`. -/
theorem permList_getD (r : ℕ → ℚ) (i : ℕ) (hi : i < 512) :
    (permList r).getD i 0 = (pTable r).getD (i % 256) 0 := by
  simp [permList, List.getD_eq_getElem?_getD, List.getElem?_map,
    List.getElem?_range, hi]

/-- The doubled table has 512 entries. -/
theorem permList_length (r : ℕ → ℚ) : (permList r).length = 512 := by
  simp [permList]

/-- Reading the mod-12 table at `i < 512` gives the doubled table entry
reduced modulo 12. -/
theorem permMod12List_getD (r : ℕ → ℚ) (i : ℕ) (hi : i < 512) :
    (permMod12List r).getD i 0 = (permList r).getD i 0 % 12 := by
  have h : i < (permList r).length := by rw [permList_length]; exact hi
  simp [permMod12List, List.getD_eq_getElem?_getD, List.getElem?_map,
    List.getElem?_eq_getElem h]

/-- C1: for a random source whose calls return values in [0, 1), the
built table holds each value 0-255 exactly once; the doubled 512-entry
table repeats with period 256; and the derived table is the doubled
table reduced modulo 12 at every index below 512. -/
theorem c1_table_invariants (r : ℕ → ℚ) (hr : ∀ k, 0 ≤ r k ∧ r k < 1) :
    (∀ v < 256, (pTable r).count v = 1) ∧
    (∀ i < 256, (permList r).getD i 0 = (permList r).getD (i + 256) 0) ∧
    (∀ i < 512, (permMod12List r).getD i 0 = (permList r).getD i 0 % 12) := by
  refine ⟨?_, ?_, ?_⟩
  · intro v hv
    have hmem : v ∈ pTable r :=
      ((pTable_perm r hr).mem_iff).mpr (List.mem_range.mpr hv)
    exact List.count_eq_one_of_mem
      ((pTable_perm r hr).nodup_iff.mpr (List.nodup_range 256)) hmem
  · intro i hi
    rw [permList_getD r i (by omega), permList_getD r (i + 256) (by omega),
      Nat.add_mod_right]
  · intro i hi
    exact permMod12List_getD r i hi

/-- Witness for C1 at the all-zeros random source. -/
theorem c1_table_invariants_witness :
    (∀ v < 256, (pTable zeroRandom).count v = 1) ∧
    (∀ i < 256, (permList zeroRandom).getD i 0 = (permList zeroRandom).getD (i + 256) 0) ∧
    (∀ i < 512, (permMod12List zeroRandom).getD i 0 = (permList zeroRandom).getD i 0 % 12) :=
  c1_table_invariants zeroRandom (fun _ => ⟨le_refl 0, by norm_num [zeroRandom]⟩)

/-- The JavaScript mask `i & 255` always lands in [0, 255]. -/
theorem mask255_le (i : ℤ) : mask255 i ≤ 255 := by
  unfold mask255
  have h1 : 0 ≤ i % 256 := Int.emod_nonneg i (by norm_num)
  have h2 : i % 256 < 256 := Int.emod_lt_of_pos i (by norm_num)
  omega

/-- Every read of the doubled table yields a byte (at most 255) when
the random source stays in [0, 1). -/
theorem permList_entry_le (r : ℕ → ℚ) (hr : ∀ k, 0 ≤ r k ∧ r k < 1) :
    ∀ n, (permList r).getD n 0 ≤ 255 := by
  intro n
  rcases Nat.lt_or_ge n 512 with h | h
  · rw [permList_getD r n h]
    have hm : n % 256 < (pTable r).length := by
      rw [pTable_length]
      exact Nat.mod_lt _ (by norm_num)
    rw [List.getD_eq_getElem _ _ hm]
    have := pTable_entry_lt r hr _ (List.getElem_mem hm)
    omega
  · rw [List.getD_eq_default]
    · omega
    · rw [permList_length]
      omega

/-- Every read of the mod-12 table is below 12. -/
theorem permMod12List_entry_lt (r : ℕ → ℚ) :
    ∀ n, (permMod12List r).getD n 0 < 12 := by
  intro n
  rcases Nat.lt_or_ge n 512 with h | h
  · rw [permMod12List_getD r n h]
    exact Nat.mod_lt _ (by norm_num)
  · rw [List.getD_eq_default]
    · omega
    · simp only [permMod12List, List.length_map, permList_length]
      omega

/-- An indicator term is at most one. -/
theorem indicator_le_one (c : Prop) [Decidable c] : (if c then (1 : ℕ) else 0) ≤ 1 := by
  split <;> omega

/-- A reversed indicator term is at most one. -/
theorem indicatorRev_le_one (c : Prop) [Decidable c] : (if c then (0 : ℕ) else 1) ≤ 1 := by
  split <;> omega

/-- Both simplex corner offsets chosen by the 3D branch are 0/1 on
every axis. -/
theorem simplex3Offsets_le (x0 y0 z0 : ℝ) :
    (simplex3Offsets x0 y0 z0).1.1 ≤ 1 ∧ (simplex3Offsets x0 y0 z0).1.2.1 ≤ 1 ∧
    (simplex3Offsets x0 y0 z0).1.2.2 ≤ 1 ∧ (simplex3Offsets x0 y0 z0).2.1 ≤ 1 ∧
    (simplex3Offsets x0 y0 z0).2.2.1 ≤ 1 ∧ (simplex3Offsets x0 y0 z0).2.2.2 ≤ 1 := by
  unfold simplex3Offsets
  split_ifs <;> simp

/-- Every component of a 4D corner offset tuple is 0/1. -/
theorem corner4_le (x0 y0 z0 w0 : ℝ) (thr : ℕ) :
    (corner4 x0 y0 z0 w0 thr).1 ≤ 1 ∧ (corner4 x0 y0 z0 w0 thr).2.1 ≤ 1 ∧
    (corner4 x0 y0 z0 w0 thr).2.2.1 ≤ 1 ∧ (corner4 x0 y0 z0 w0 thr).2.2.2 ≤ 1 := by
  unfold corner4
  refine ⟨?_, ?_, ?_, ?_⟩ <;> simp only [] <;> split <;> omega

/-- Bound for the 2D hash shape `ii + a + perm[jj + b]`. -/
theorem hash2_le (g : Gen) (hA : ∀ n, permAt g n ≤ 255) (ii jj a b : ℕ)
    (hii : ii ≤ 255) (hjj : jj ≤ 255) (ha : a ≤ 1) (hb : b ≤ 1) :
    jj + b ≤ 511 ∧ ii + a + permAt g (jj + b) ≤ 511 := by
  have h2 := hA (jj + b)
  omega

/-- Bound for the 3D hash `ii + a + perm[jj + b + perm[kk + c]]` and
its nested indices. -/
theorem hash3_le (g : Gen) (hA : ∀ n, permAt g n ≤ 255) (ii jj kk a b c : ℕ)
    (hii : ii ≤ 255) (hjj : jj ≤ 255) (hkk : kk ≤ 255)
    (ha : a ≤ 1) (hb : b ≤ 1) (hc : c ≤ 1) :
    kk + c ≤ 511 ∧ jj + b + permAt g (kk + c) ≤ 511 ∧
    hash3 g ii jj kk a b c ≤ 511 := by
  have h1 := hA (kk + c)
  have h2 := hA (jj + b + permAt g (kk + c))
  unfold hash3
  omega

/-- Bound for the 4D hash and its nested indices. -/
theorem hash4_le (g : Gen) (hA : ∀ n, permAt g n ≤ 255) (ii jj kk ll a b c d : ℕ)
    (hii : ii ≤ 255) (hjj : jj ≤ 255) (hkk : kk ≤ 255) (hll : ll ≤ 255)
    (ha : a ≤ 1) (hb : b ≤ 1) (hc : c ≤ 1) (hd : d ≤ 1) :
    ll + d ≤ 511 ∧ kk + c + permAt g (ll + d) ≤ 511 ∧
    jj + b + permAt g (kk + c + permAt g (ll + d)) ≤ 511 ∧
    hash4 g ii jj kk ll a b c d ≤ 511 := by
  have h1 := hA (ll + d)
  have h2 := hA (kk + c + permAt g (ll + d))
  have h3 := hA (jj + b + permAt g (kk + c + permAt g (ll + d)))
  unfold hash4
  omega

/-- C9: for a generator whose tables come from a random source staying
in [0, 1), every table access of the three kernels is in bounds: perm
bytes are at most 255, every index the kernels form into the 512-entry
`perm` and `permMod12` tables (outer hash indices and the nested inner
ones) is at most 511, every `permMod12` value is below 12 (in range
for the 12-entry gradient table), and every 4D gradient index (a perm
byte reduced modulo 32) is below 32. -/
theorem c9_index_bounds (r : ℕ → ℚ) (hr : ∀ k, 0 ≤ r k ∧ r k < 1)
    (g : Gen) (hgp : g.perm = permList r) (hgm : g.permMod12 = permMod12List r) :
    (∀ n, permAt g n ≤ 255) ∧
    (∀ n, permMod12At g n < 12) ∧
    (∀ x y : ℝ, mask255 (cell2J x y) + 1 ≤ 511 ∧
      (hashIdx2 g x y).1 ≤ 511 ∧ (hashIdx2 g x y).2.1 ≤ 511 ∧
      (hashIdx2 g x y).2.2 ≤ 511) ∧
    (∀ x y z : ℝ, (hashIdx3 g x y z).1 ≤ 511 ∧ (hashIdx3 g x y z).2.1 ≤ 511 ∧
      (hashIdx3 g x y z).2.2.1 ≤ 511 ∧ (hashIdx3 g x y z).2.2.2 ≤ 511) ∧
    (∀ x y z w : ℝ, (hashIdx4 g x y z w).1 ≤ 511 ∧ (hashIdx4 g x y z w).2.1 ≤ 511 ∧
      (hashIdx4 g x y z w).2.2.1 ≤ 511 ∧ (hashIdx4 g x y z w).2.2.2.1 ≤ 511 ∧
      (hashIdx4 g x y z w).2.2.2.2 ≤ 511) ∧
    (∀ ii jj kk a b c : ℕ, ii ≤ 255 → jj ≤ 255 → kk ≤ 255 →
      a ≤ 1 → b ≤ 1 → c ≤ 1 →
      kk + c ≤ 511 ∧ jj + b + permAt g (kk + c) ≤ 511 ∧
      hash3 g ii jj kk a b c ≤ 511) ∧
    (∀ ii jj kk ll a b c d : ℕ, ii ≤ 255 → jj ≤ 255 → kk ≤ 255 → ll ≤ 255 →
      a ≤ 1 → b ≤ 1 → c ≤ 1 → d ≤ 1 →
      ll + d ≤ 511 ∧ kk + c + permAt g (ll + d) ≤ 511 ∧
      jj + b + permAt g (kk + c + permAt g (ll + d)) ≤ 511 ∧
      hash4 g ii jj kk ll a b c d ≤ 511) ∧
    (∀ n, permAt g n % 32 < 32) := by
  have hA : ∀ n, permAt g n ≤ 255 := by
    intro n
    unfold permAt
    rw [hgp]
    exact permList_entry_le r hr n
  have hM : ∀ n, permMod12At g n < 12 := by
    intro n
    unfold permMod12At
    rw [hgm]
    exact permMod12List_entry_lt r n
  refine ⟨hA, hM, ?_, ?_, ?_, ?_, ?_, ?_⟩
  · intro x y
    have hii := mask255_le (cell2I x y)
    have hjj := mask255_le (cell2J x y)
    refine ⟨by omega, ?_, ?_, ?_⟩
    · simp only [hashIdx2]
      have := hA (mask255 (cell2J x y))
      omega
    · simp only [hashIdx2]
      exact (hash2_le g hA _ _ _ _ hii hjj (indicator_le_one _)
        (indicatorRev_le_one _)).2
    · simp only [hashIdx2]
      exact (hash2_le g hA _ _ 1 1 hii hjj (le_refl 1) (le_refl 1)).2
  · intro x y z
    have hii := mask255_le (cell3I x y z)
    have hjj := mask255_le (cell3J x y z)
    have hkk := mask255_le (cell3K x y z)
    have hoff := simplex3Offsets_le
      (x - ((cell3I x y z : ℝ) - ((cell3I x y z + cell3J x y z + cell3K x y z : ℤ) : ℝ) * G3))
      (y - ((cell3J x y z : ℝ) - ((cell3I x y z + cell3J x y z + cell3K x y z : ℤ) : ℝ) * G3))
      (z - ((cell3K x y z : ℝ) - ((cell3I x y z + cell3J x y z + cell3K x y z : ℤ) : ℝ) * G3))
    refine ⟨?_, ?_, ?_, ?_⟩ <;> simp only [hashIdx3]
    · exact (hash3_le g hA _ _ _ 0 0 0 hii hjj hkk (by omega) (by omega) (by omega)).2.2
    · exact (hash3_le g hA _ _ _ _ _ _ hii hjj hkk hoff.1 hoff.2.1 hoff.2.2.1).2.2
    · exact (hash3_le g hA _ _ _ _ _ _ hii hjj hkk hoff.2.2.2.1 hoff.2.2.2.2.1
        hoff.2.2.2.2.2).2.2
    · exact (hash3_le g hA _ _ _ 1 1 1 hii hjj hkk (le_refl 1) (le_refl 1) (le_refl 1)).2.2
  · intro x y z w
    have hii := mask255_le (cell4I x y z w)
    have hjj := mask255_le (cell4J x y z w)
    have hkk := mask255_le (cell4K x y z w)
    have hll := mask255_le (cell4L x y z w)
    refine ⟨?_, ?_, ?_, ?_, ?_⟩ <;> simp only [hashIdx4]
    · exact (hash4_le g hA _ _ _ _ 0 0 0 0 hii hjj hkk hll
        (by omega) (by omega) (by omega) (by omega)).2.2.2
    · have hc := corner4_le
        (x - ((cell4I x y z w : ℝ) - ((cell4I x y z w + cell4J x y z w + cell4K x y z w + cell4L x y z w : ℤ) : ℝ) * G4))
        (y - ((cell4J x y z w : ℝ) - ((cell4I x y z w + cell4J x y z w + cell4K x y z w + cell4L x y z w : ℤ) : ℝ) * G4))
        (z - ((cell4K x y z w : ℝ) - ((cell4I x y z w + cell4J x y z w + cell4K x y z w + cell4L x y z w : ℤ) : ℝ) * G4))
        (w - ((cell4L x y z w : ℝ) - ((cell4I x y z w + cell4J x y z w + cell4K x y z w + cell4L x y z w : ℤ) : ℝ) * G4))
        3
      exact (hash4_le g hA _ _ _ _ _ _ _ _ hii hjj hkk hll
        hc.1 hc.2.1 hc.2.2.1 hc.2.2.2).2.2.2
    · have hc := corner4_le
        (x - ((cell4I x y z w : ℝ) - ((cell4I x y z w + cell4J x y z w + cell4K x y z w + cell4L x y z w : ℤ) : ℝ) * G4))
        (y - ((cell4J x y z w : ℝ) - ((cell4I x y z w + cell4J x y z w + cell4K x y z w + cell4L x y z w : ℤ) : ℝ) * G4))
        (z - ((cell4K x y z w : ℝ) - ((cell4I x y z w + cell4J x y z w + cell4K x y z w + cell4L x y z w : ℤ) : ℝ) * G4))
        (w - ((cell4L x y z w : ℝ) - ((cell4I x y z w + cell4J x y z w + cell4K x y z w + cell4L x y z w : ℤ) : ℝ) * G4))
        2
      exact (hash4_le g hA _ _ _ _ _ _ _ _ hii hjj hkk hll
        hc.1 hc.2.1 hc.2.2.1 hc.2.2.2).2.2.2
    · have hc := corner4_le
        (x - ((cell4I x y z w : ℝ) - ((cell4I x y z w + cell4J x y z w + cell4K x y z w + cell4L x y z w : ℤ) : ℝ) * G4))
        (y - ((cell4J x y z w : ℝ) - ((cell4I x y z w + cell4J x y z w + cell4K x y z w + cell4L x y z w : ℤ) : ℝ) * G4))
        (z - ((cell4K x y z w : ℝ) - ((cell4I x y z w + cell4J x y z w + cell4K x y z w + cell4L x y z w : ℤ) : ℝ) * G4))
        (w - ((cell4L x y z w : ℝ) - ((cell4I x y z w + cell4J x y z w + cell4K x y z w + cell4L x y z w : ℤ) : ℝ) * G4))
        1
      exact (hash4_le g hA _ _ _ _ _ _ _ _ hii hjj hkk hll
        hc.1 hc.2.1 hc.2.2.1 hc.2.2.2).2.2.2
    · exact (hash4_le g hA _ _ _ _ 1 1 1 1 hii hjj hkk hll
        (le_refl 1) (le_refl 1) (le_refl 1) (le_refl 1)).2.2.2
  · intro ii jj kk a b c hii hjj hkk ha hb hc
    exact hash3_le g hA ii jj kk a b c hii hjj hkk ha hb hc
  · intro ii jj kk ll a b c d hii hjj hkk hll ha hb hc hd
    exact hash4_le g hA ii jj kk ll a b c d hii hjj hkk hll ha hb hc hd
  · intro n
    exact Nat.mod_lt _ (by norm_num)

/-- Witness for C9 at the all-zeros source and a sample index. -/
theorem c9_index_bounds_witness :
    permAt gen0 300 ≤ 255 ∧ permMod12At gen0 300 < 12 ∧ permAt gen0 300 % 32 < 32 := by
  have hzr : ∀ k, (0 : ℚ) ≤ zeroRandom k ∧ zeroRandom k < 1 :=
    fun _ => ⟨le_refl 0, by norm_num [zeroRandom]⟩
  have hp : gen0.perm = permList zeroRandom := by simp only [gen0, buildGen]
  have hm : gen0.permMod12 = permMod12List zeroRandom := by simp only [gen0, buildGen]
  have h := c9_index_bounds zeroRandom hzr gen0 hp hm
  exact ⟨h.1 300, h.2.1 300, h.2.2.2.2.2.2.2 300⟩

/-- Closed form of the octave loop: starting from accumulators
`(maxAmplitude, noise)`, running `n` iterations adds the geometric
kernel sum to `noise` and the geometric amplitude sum to
`maxAmplitude`. -/
theorem octaveLoop_eq_sum (p : ℝ) (kernel : ℝ → ℝ) :
    ∀ (n : ℕ) (amp freq maxAmp noise : ℝ),
      octaveLoop p kernel n amp freq maxAmp noise =
        (noise + ∑ k ∈ Finset.range n, kernel (freq * 2 ^ k) * (amp * p ^ k),
         maxAmp + ∑ k ∈ Finset.range n, amp * p ^ k) := by
  intro n
  induction n with
  | zero =>
      intro amp freq maxAmp noise
      simp [octaveLoop]
  | succ n ih =>
      intro amp freq maxAmp noise
      rw [octaveLoop, ih, Finset.sum_range_succ', Finset.sum_range_succ']
      have h1 : ∀ k : ℕ, kernel (freq * 2 * 2 ^ k) = kernel (freq * 2 ^ (k + 1)) := by
        intro k
        have harg : freq * 2 * 2 ^ k = freq * 2 ^ (k + 1) := by ring
        rw [harg]
      have h2 : ∀ k : ℕ, amp * p * p ^ k = amp * p ^ (k + 1) := fun k => by ring
      simp only [h1, h2, pow_zero, mul_one, Prod.mk.injEq]
      constructor <;> ring

/-- C3: for a generator with at least one octave, each scaled method
returns `rescale(noise / maxAmplitude)` where `noise` sums the kernel
at frequency F0 * 2^k weighted by A0 * p^k over the octaves and
`maxAmplitude` sums the weights; the rescale is the identity exactly
on the default range [-1, 1] and the linear interpolation otherwise. -/
theorem c3_octave_formula (g : Gen) (hoct : 1 ≤ g.octaves) (x y z w : ℝ) :
    scaled2D g x y = scaleFun g.min g.max
      ((∑ k ∈ Finset.range g.octaves.toNat,
          raw2D g (x * (g.frequency * 2 ^ k)) (y * (g.frequency * 2 ^ k))
            * (g.amplitude * g.persistence ^ k)) /
       (∑ k ∈ Finset.range g.octaves.toNat, g.amplitude * g.persistence ^ k)) ∧
    scaled3D g x y z = scaleFun g.min g.max
      ((∑ k ∈ Finset.range g.octaves.toNat,
          raw3D g (x * (g.frequency * 2 ^ k)) (y * (g.frequency * 2 ^ k))
            (z * (g.frequency * 2 ^ k)) * (g.amplitude * g.persistence ^ k)) /
       (∑ k ∈ Finset.range g.octaves.toNat, g.amplitude * g.persistence ^ k)) ∧
    scaled4D g x y z w = scaleFun g.min g.max
      ((∑ k ∈ Finset.range g.octaves.toNat,
          raw4D g (x * (g.frequency * 2 ^ k)) (y * (g.frequency * 2 ^ k))
            (z * (g.frequency * 2 ^ k)) (w * (g.frequency * 2 ^ k))
            * (g.amplitude * g.persistence ^ k)) /
       (∑ k ∈ Finset.range g.octaves.toNat, g.amplitude * g.persistence ^ k)) ∧
    (∀ v : ℝ, g.min = -1 ∧ g.max = 1 → scaleFun g.min g.max v = v) ∧
    (∀ v : ℝ, ¬(g.min = -1 ∧ g.max = 1) →
      scaleFun g.min g.max v = g.min + ((v + 1) / 2) * (g.max - g.min)) := by
  refine ⟨?_, ?_, ?_, ?_, ?_⟩
  · unfold scaled2D
    rw [octaveLoop_eq_sum]
    simp
  · unfold scaled3D
    rw [octaveLoop_eq_sum]
    simp
  · unfold scaled4D
    rw [octaveLoop_eq_sum]
    simp
  · intro v hv
    simp [scaleFun, hv]
  · intro v hv
    simp [scaleFun, hv]

/-- Witness for C3: the concrete default generator (one octave) at the
origin. -/
theorem c3_octave_formula_witness :
    (1 : ℤ) ≤ gen0.octaves ∧
    scaled2D gen0 0 0 = scaleFun gen0.min gen0.max
      ((∑ k ∈ Finset.range gen0.octaves.toNat,
          raw2D gen0 (0 * (gen0.frequency * 2 ^ k)) (0 * (gen0.frequency * 2 ^ k))
            * (gen0.amplitude * gen0.persistence ^ k)) /
       (∑ k ∈ Finset.range gen0.octaves.toNat, gen0.amplitude * gen0.persistence ^ k)) :=
  ⟨le_refl 1, (c3_octave_formula gen0 (le_refl 1) 0 0 0 0).1⟩

/-- C5: with one octave, unit amplitude and frequency and the default
output range, `scaled2D` equals `raw2D` exactly. -/
theorem c5_single_octave (g : Gen) (h1 : g.octaves = 1) (h2 : g.amplitude = 1)
    (h3 : g.frequency = 1) (h4 : g.min = -1) (h5 : g.max = 1) (x y : ℝ) :
    scaled2D g x y = raw2D g x y := by
  unfold scaled2D
  rw [h1, h2, h3, h4, h5]
  simp [octaveLoop, scaleFun]

/-- Witness for C5: the concrete default generator at the origin. -/
theorem c5_single_octave_witness :
    gen0.octaves = 1 ∧ gen0.amplitude = 1 ∧ gen0.frequency = 1 ∧
    gen0.min = -1 ∧ gen0.max = 1 ∧ scaled2D gen0 0 0 = raw2D gen0 0 0 :=
  ⟨rfl, rfl, rfl, rfl, rfl, c5_single_octave gen0 rfl rfl rfl rfl rfl 0 0⟩

/-- Characterisation of `numOption` success. -/
theorem numOption_ok_iff (v : Option JSOpt) (d : ℝ) (m : String) (x : ℝ) :
    numOption v d m = .ok x ↔ (numOk v ∧ x = effNum v d) := by
  cases v with
  | none => simp [numOption, numOk, effNum, eq_comm]
  | some j => cases j <;> simp [numOption, numOk, effNum, eq_comm]

/-- Characterisation of `octavesOption` success. -/
theorem octavesOption_ok_iff (v : Option JSOpt) (n : ℤ) :
    octavesOption v = .ok n ↔ (octavesOk v ∧ n = ⌊effNum v 1⌋) := by
  cases v with
  | none => simp [octavesOption, octavesOk, effNum, eq_comm]
  | some j =>
      cases j with
      | num x =>
          by_cases hx : (⌊x⌋ : ℝ) = x <;>
            simp [octavesOption, octavesOk, effNum, hx, eq_comm]
      | nonNum => simp [octavesOption, octavesOk]

/-- Characterisation of `randomOption` success. -/
theorem randomOption_ok_iff (v : Option (Option (ℕ → ℚ))) (dflt f : ℕ → ℚ) :
    randomOption v dflt = .ok f ↔
      (randomOk v ∧ f = (match v with | some (some h) => h | _ => dflt)) := by
  cases v with
  | none => simp [randomOption, randomOk, eq_comm]
  | some j => cases j <;> simp [randomOption, randomOk, eq_comm]

/-- Success of an `Except` bind decomposes into successes. -/
theorem exceptBind_ok_iff {α β : Type} (e : Except String α)
    (f : α → Except String β) (b : β) :
    (e >>= f) = .ok b ↔ ∃ a, e = .ok a ∧ f a = .ok b := by
  cases e <;> simp [Bind.bind, Except.bind]

/-- Success of the final range check. -/
theorem rangeIte_ok_iff {α : Type} (c : Prop) [Decidable c] (m : String) (g0 g : α) :
    (if c then (throw m : Except String α) else pure g0) = .ok g ↔ (¬c ∧ g = g0) := by
  split <;>
    simp [throw, throwThe, MonadExceptOf.throw, pure, Except.pure, eq_comm] <;>
    tauto

/-- C4 counterexample: the constructor accepts an octave count of zero
and returns a generator rather than throwing (the claim would have it
rejected as not a positive integer). -/
theorem c4_octaves_zero_accepted :
    construct zeroRandom optionsOctZero
      = .ok (buildGen 1 1 0 0.5 zeroRandom (-1) 1) := by
  unfold construct optionsOctZero
  norm_num [numOption, octavesOption, randomOption, Bind.bind, Except.bind,
    pure, Except.pure]

/-- C4 (amended): construction succeeds (returns a generator rather
than throwing) exactly when every present option has the required
type, a present octaves option is an integer (positivity is NOT
checked), and the effective minimum is below the effective maximum. -/
theorem c4_construct_ok_iff (dr : ℕ → ℚ) (o : Options) :
    (∃ g, construct dr o = .ok g) ↔
      (numOk o.amplitude ∧ numOk o.frequency ∧ octavesOk o.octaves ∧
       numOk o.persistence ∧ randomOk o.random ∧ numOk o.min ∧ numOk o.max ∧
       effNum o.min (-1) < effNum o.max 1) := by
  unfold construct
  simp only [exceptBind_ok_iff, numOption_ok_iff, octavesOption_ok_iff,
    randomOption_ok_iff, rangeIte_ok_iff, and_assoc, exists_and_left,
    exists_eq_left, not_le, exists_eq', and_true]
  tauto

/-- With the all-zeros source a Fisher-Yates step swaps with entry 0. -/
theorem fyStep_zero (p : List ℕ) (i : ℕ) :
    fyStep zeroRandom p i = (p.set i (p.getD 0 0)).set 0 (p.getD i 0) := by
  unfold fyStep zeroRandom
  norm_num

/-- With the all-zeros source the loop is the pure swap loop. -/
theorem fyLoop_zero : ∀ (i : ℕ) (p : List ℕ), fyLoop zeroRandom i p = swapLoop i p := by
  intro i
  induction i with
  | zero => intro p; rfl
  | succ i ih => intro p; rw [fyLoop, fyStep_zero, swapLoop, ih]

set_option maxRecDepth 10000 in
/-- The table built from the all-zeros source: entry `i` holds
`(i + 1) mod 256`. -/
theorem pTable_zero : pTable zeroRandom = (List.range 256).map (fun i => (i + 1) % 256) := by
  rw [pTable, fyLoop_zero]
  decide

/-- Doubled-table reads for the all-zeros source. -/
theorem permList_zero_getD (n : ℕ) (h : n < 512) :
    (permList zeroRandom).getD n 0 = (n % 256 + 1) % 256 := by
  rw [permList_getD zeroRandom n h, pTable_zero]
  have hm : n % 256 < 256 := Nat.mod_lt _ (by norm_num)
  simp [List.getD_eq_getElem?_getD, List.getElem?_map, List.getElem?_range, hm]

/-- Perm reads of the concrete generator `gen0`. -/
theorem permAt_gen0 (n : ℕ) (h : n < 512) :
    permAt gen0 n = (n % 256 + 1) % 256 := by
  have hp : gen0.perm = permList zeroRandom := by simp only [gen0, buildGen]
  unfold permAt
  rw [hp]
  exact permList_zero_getD n h

/-- Mod-12 reads of the concrete generator `gen0`. -/
theorem permMod12At_gen0 (n : ℕ) (h : n < 512) :
    permMod12At gen0 n = (n % 256 + 1) % 256 % 12 := by
  have hm : gen0.permMod12 = permMod12List zeroRandom := by simp only [gen0, buildGen]
  unfold permMod12At
  rw [hm, permMod12List_getD zeroRandom n h, permList_zero_getD n h]

/-- C2 refutation: the 3D kernel leaves [-1, 1].  With the generator
built from the all-zeros random source, the input (1/6, 3/2, 10/3)
yields a raw3D value of about 1.2316 (exactly 94.68493150681972 times
the corner sum), strictly greater than 1.  The 3D kernel involves no
irrational constants, so this evaluation is exact real arithmetic, not
a rounding artefact. -/
theorem c2_raw3D_exceeds_one : 1 < raw3D gen0 (1/6) (3/2) (10/3) := by
  have hI : cell3I (1/6) (3/2) (10/3) = 1 := by
    unfold cell3I skew3
    rw [Int.floor_eq_iff]
    norm_num
  have hJ : cell3J (1/6) (3/2) (10/3) = 3 := by
    unfold cell3J skew3
    rw [Int.floor_eq_iff]
    norm_num
  have hK : cell3K (1/6) (3/2) (10/3) = 5 := by
    unfold cell3K skew3
    rw [Int.floor_eq_iff]
    norm_num
  have hA5 : permAt gen0 5 = 6 := by rw [permAt_gen0 5 (by norm_num)]
  have hA6 : permAt gen0 6 = 7 := by rw [permAt_gen0 6 (by norm_num)]
  have hA9 : permAt gen0 9 = 10 := by rw [permAt_gen0 9 (by norm_num)]
  have hA10 : permAt gen0 10 = 11 := by rw [permAt_gen0 10 (by norm_num)]
  have hA11 : permAt gen0 11 = 12 := by rw [permAt_gen0 11 (by norm_num)]
  have hM11 : permMod12At gen0 11 = 0 := by rw [permMod12At_gen0 11 (by norm_num)]
  have hM12 : permMod12At gen0 12 = 1 := by rw [permMod12At_gen0 12 (by norm_num)]
  have hM13 : permMod12At gen0 13 = 2 := by rw [permMod12At_gen0 13 (by norm_num)]
  have hM14 : permMod12At gen0 14 = 3 := by rw [permMod12At_gen0 14 (by norm_num)]
  have ht1 : Int.toNat 1 = 1 := rfl
  have ht3 : Int.toNat 3 = 3 := rfl
  have ht5 : Int.toNat 5 = 5 := rfl
  norm_num [raw3D, hashIdx3, hash3, simplex3Offsets, mask255, G3, dot, GRAD3D,
    ht1, ht3, ht5,
    hI, hJ, hK, hA5, hA6, hA9, hA10, hA11, hM11, hM12, hM13, hM14]
